import Mathlib

/-!
Verification of the Cart Aggregation & Index Visualization Engine of the
meta-balance-app repository.  The definitions below are a shallow embedding of
the TypeScript source: `src/frontend/src/pages/App.tsx` (page component and the
zustand cart store appended to that file), `src/unnamed/part_001`
(`CastleVerdeIndexDisplay` and `CastleVerdeIndexGauge`), and
`src/frontend/src/components/NutritionForm.tsx`.  JavaScript numbers are
modelled as rationals (ℚ); `undefined`/`null`-able values as `Option`;
fallible remote calls as `Except String` responses fed to the code's response
handlers.
-/

namespace MetaBalance

/-! ## Data model (cartStore section of App.tsx and brain/data-contracts.ts) -/

/-- The five-field macro vector used on the wire
(`MacroNutrients` in data-contracts.ts, snake_case field names). -/
structure MacroNutrients where
  protein : ℚ
  fat : ℚ
  total_carbs : ℚ
  fiber : ℚ
  sugar : ℚ
deriving DecidableEq

/-- A cart line item, as actually constructed by `handleAnalyzeAndAddToCart`
(`const cartItem = { name, macros }`) and stored by the cart store.  The `id`
is the numeric `Date.now()` timestamp taken at `addItem` time; the source
stores its decimal string (`Date.now().toString()`), and since the
number-to-decimal-string conversion is injective, id distinctness coincides
with timestamp distinctness.  Items added through the UI carry no `quantity`
field (`undefined`, modelled `none`); `updateItemQuantity` can set one. -/
structure CartItem where
  id : ℕ
  name : String
  macros : MacroNutrients
  quantity : Option ℕ
deriving DecidableEq

/-- `CastleVerdeIndexResponse` from data-contracts.ts (the fields the engine
reads). -/
structure CastleVerdeIndexResponse where
  predicted_spike : ℚ
  input_data : MacroNutrients
  balanced_macros : MacroNutrients
  tier_label : String
  tier_color : String
deriving DecidableEq

/-- `CartTotals` from the cart store: the scoring response plus `itemCount`. -/
structure CartTotals extends CastleVerdeIndexResponse where
  itemCount : ℕ
deriving DecidableEq

/-- The data fields of the zustand cart store (`CartState` in App.tsx). -/
structure CartState where
  items : List CartItem
  cartTotals : Option CartTotals
  anchorKey : String
  error : Option String
deriving DecidableEq

/-- `CalculationRequest` from data-contracts.ts: the body sent to the remote
scoring contract. -/
structure CalculationRequest where
  aggregated_input_data : MacroNutrients
  anchor_id : String
deriving DecidableEq

/-! ## Aggregation Engine (cart store) -/

/-- Component-wise addition of macro vectors (the `+=` accumulation inside the
store's `reduce`). -/
def addMacros (a b : MacroNutrients) : MacroNutrients :=
  ⟨a.protein + b.protein, a.fat + b.fat, a.total_carbs + b.total_carbs,
   a.fiber + b.fiber, a.sugar + b.sugar⟩

/-- Scaling of a macro vector by a quantity (the `* quantity` factor inside the
store's `reduce`). -/
def scaleMacros (q : ℚ) (m : MacroNutrients) : MacroNutrients :=
  ⟨q * m.protein, q * m.fat, q * m.total_carbs, q * m.fiber, q * m.sugar⟩

instance : Zero MacroNutrients := ⟨⟨0, 0, 0, 0, 0⟩⟩

instance : Add MacroNutrients := ⟨addMacros⟩

/-- `const quantity = item.quantity || 1` in `calculateTotals`: a missing
(`undefined`) or zero (falsy) quantity is replaced by 1. -/
def effectiveQuantity (item : CartItem) : ℚ :=
  match item.quantity with
  | none => 1
  | some q => if q = 0 then 1 else q

/-- One item's contribution inside the store's `reduce` step:
`(item.macros?.protein || 0) * quantity` etc. -/
def contribution (item : CartItem) : MacroNutrients :=
  scaleMacros (effectiveQuantity item) item.macros

/-- One step of the store's `items.reduce` accumulator. -/
def aggregateStep (acc : MacroNutrients) (item : CartItem) : MacroNutrients :=
  addMacros acc (contribution item)

/-- The aggregation in `calculateTotals`:
`items.reduce((acc, item) => ..., { protein: 0, fat: 0, total_carbs: 0, fiber: 0, sugar: 0 })`. -/
def aggregate (items : List CartItem) : MacroNutrients :=
  items.foldl aggregateStep 0

/-! ## Cart store mutations -/

/-- `addItem` in the cart store: builds `newItem` with `id: Date.now().toString()`
and appends it (`[...state.items, newItem]`); `now` is the timestamp read at
the call. -/
def addItem (now : ℕ) (name : String) (macros : MacroNutrients)
    (s : CartState) : CartState :=
  { s with items := s.items ++ [⟨now, name, macros, none⟩] }

/-- `removeItem` in the cart store: filters the item out; when the cart becomes
empty it nulls `cartTotals` instead of recomputing. -/
def removeItem (itemId : ℕ) (s : CartState) : CartState :=
  let remaining := s.items.filter (fun item => item.id ≠ itemId)
  if remaining.length > 0 then { s with items := remaining }
  else { s with items := remaining, cartTotals := none }

/-- `Math.max(0, quantity)` in `updateItemQuantity`, for a possibly negative
requested quantity. -/
def clampQuantity (q : ℤ) : ℕ := (max 0 q).toNat

/-- The per-item map function of `updateItemQuantity`:
`item.id === itemId ? { ...item, quantity: Math.max(0, quantity) } : item`. -/
def updateItemQuantityFn (itemId : ℕ) (q : ℤ) (item : CartItem) : CartItem :=
  if item.id = itemId then { item with quantity := some (clampQuantity q) }
  else item

/-- `updateItemQuantity` in the cart store. -/
def updateItemQuantity (itemId : ℕ) (q : ℤ) (s : CartState) : CartState :=
  { s with items := s.items.map (updateItemQuantityFn itemId q) }

/-- `clearCart` in the cart store: `set({ items: [], cartTotals: null })`.
Zustand's `set` merges the partial state, so every other field is untouched. -/
def clearCart (s : CartState) : CartState :=
  { s with items := [], cartTotals := none }

/-! ## Scoring Orchestrator (cart-level, `calculateTotals` in the store) -/

/-- The request body built by `calculateTotals`:
`{ aggregated_input_data: aggregated, anchor_id: get().anchorKey }`.
The anchor key is sent raw, without `mapAnchorKeyToApiValue`. -/
def calculateTotalsRequest (s : CartState) : CalculationRequest :=
  ⟨aggregate s.items, s.anchorKey⟩

/-- The response handling of `calculateTotals`: on success the parsed result
plus `itemCount` replaces `cartTotals` wholesale; on failure (`catch`) the
stale `cartTotals` is kept and only `error` is set. -/
def calculateTotalsSettle (s : CartState)
    (resp : Except String CastleVerdeIndexResponse) : CartState :=
  match resp with
  | .ok r => { s with cartTotals := some ⟨r, s.items.length⟩ }
  | .error e => { s with error := some e }

/-- A whole `calculateTotals` run as a function of the eventual response:
it first clears `error`, returns early with `cartTotals := null` on an empty
cart, and otherwise settles with the response. -/
def calculateTotals (s : CartState)
    (resp : Except String CastleVerdeIndexResponse) : CartState :=
  let s1 := { s with error := none }
  if s1.items.isEmpty then { s1 with cartTotals := none }
  else calculateTotalsSettle s1 resp

/-- Out-of-order arrival of scoring responses: `calculateTotals` applies every
response that arrives through its unconditional `set({ cartTotals: ... })`;
there is no request sequence number, so responses are folded in arrival
order. -/
def applyResponses (s : CartState)
    (resps : List (Except String CastleVerdeIndexResponse)) : CartState :=
  resps.foldl calculateTotalsSettle s

/-! ## Single-item scoring and acquisition flows (App component state) -/

/-- `NutritionData` as used by `calculateIndividualScore`: the form's string
fields, where `Number(x) || 0` turns an empty or unparseable field into 0.
A field is modelled as `Option ℚ`, `none` standing for an empty/unparseable
string. -/
structure NutritionData where
  itemName : String
  protein : Option ℚ
  fat : Option ℚ
  totalCarbs : Option ℚ
  fiber : Option ℚ
  sugar : Option ℚ
deriving DecidableEq

/-- `Number(x) || 0`. -/
def numberOr0 (x : Option ℚ) : ℚ := x.getD 0

/-- The `individualMacros` object built in `calculateIndividualScore`. -/
def toMacros (d : NutritionData) : MacroNutrients :=
  ⟨numberOr0 d.protein, numberOr0 d.fat, numberOr0 d.totalCarbs,
   numberOr0 d.fiber, numberOr0 d.sugar⟩

/-- The `OcrData` draft populated by the OCR and AI-lookup flows
(`NutritionData` plus an optional serving count). -/
structure OcrData extends NutritionData where
  servings : Option ℚ
deriving DecidableEq

/-- The component-level `useState` fields of App.tsx that the single-item
scoring and acquisition flows read and write. -/
structure AppState where
  individualItemScore : Option ℚ
  isCalculatingItem : Bool
  calculationItemError : Option String
  isLookingUp : Bool
  lookupError : Option String
  isProcessingOcr : Bool
  ocrError : Option String
  ocrResultData : Option OcrData
deriving DecidableEq

/-- `mapAnchorKeyToApiValue` in App.tsx: maps the UI anchor key to the wire
value (`"TotalCarbs"` to `"total_carbs"`, everything else lower-cased). -/
def mapAnchorKeyToApiValue (uiAnchorKey : String) : String :=
  if uiAnchorKey = "TotalCarbs" then "total_carbs"
  else uiAnchorKey.toLower

/-- The request body built by `calculateIndividualScore`:
`{ aggregated_input_data: individualMacros, anchor_id: anchorKey }`.
The store's `anchorKey` is sent raw, without `mapAnchorKeyToApiValue`. -/
def calculateIndividualScoreRequest (d : NutritionData) (anchorKey : String) :
    CalculationRequest :=
  ⟨toMacros d, anchorKey⟩

/-- The request body built by the `fetchIndividualBalancedMacros` effect:
this is the one scoring call that routes the anchor through
`mapAnchorKeyToApiValue`. -/
def fetchIndividualBalancedMacrosRequest (ocr : NutritionData)
    (singleItemAnchorKey : String) : CalculationRequest :=
  ⟨toMacros ocr, mapAnchorKeyToApiValue singleItemAnchorKey⟩

/-- The state writes at the top of `calculateIndividualScore`:
`setIsCalculatingItem(true); setIndividualItemScore(null);
setCalculationItemError(null)`. -/
def calculateIndividualScoreStart (st : AppState) : AppState :=
  { st with isCalculatingItem := true, individualItemScore := none,
            calculationItemError := none }

/-- The response handling of `calculateIndividualScore`: on success the score
becomes `resultData.predicted_spike`; on failure (`catch`) the error message is
surfaced and the score is set to `null` again; `finally` resets the busy
flag. -/
def calculateIndividualScoreSettle (st : AppState)
    (resp : Except String CastleVerdeIndexResponse) : AppState :=
  match resp with
  | .ok r => { st with individualItemScore := some r.predicted_spike,
                       isCalculatingItem := false }
  | .error e => { st with calculationItemError := some e,
                          individualItemScore := none,
                          isCalculatingItem := false }

/-- A whole `calculateIndividualScore` run as a function of the eventual
response. -/
def calculateIndividualScore (st : AppState)
    (resp : Except String CastleVerdeIndexResponse) : AppState :=
  calculateIndividualScoreSettle (calculateIndividualScoreStart st) resp

/-- The state writes at the top of `handleAutoFillRequest`:
`setIsLookingUp(true); setLookupError(null); setOcrResultData(null);
setIndividualItemScore(null); setCalculationItemError(null)`. -/
def handleAutoFillRequestStart (st : AppState) : AppState :=
  { st with isLookingUp := true, lookupError := none, ocrResultData := none,
            individualItemScore := none, calculationItemError := none }

/-- The `catch` block of `handleAutoFillRequest`: `setLookupError(errorMessage);
setCalculationItemError(errorMessage)`; `finally` resets the busy flag. -/
def handleAutoFillRequestFail (st : AppState) (e : String) : AppState :=
  { st with lookupError := some e, calculationItemError := some e,
            isLookingUp := false }

/-- A failed AI-lookup flow end to end: the clearing writes at flow start
followed by the `catch`/`finally` writes. -/
def handleAutoFillRequestFailure (st : AppState) (e : String) : AppState :=
  handleAutoFillRequestFail (handleAutoFillRequestStart st) e

/-- The state writes at the top of `processCapturedImage`:
`setIsProcessingOcr(true); setOcrError(null); setOcrResultData(null)`. -/
def processCapturedImageStart (st : AppState) : AppState :=
  { st with isProcessingOcr := true, ocrError := none, ocrResultData := none }

/-- The `catch` block of `processCapturedImage`: `setOcrError(displayError)`;
`finally` resets the busy flag. -/
def processCapturedImageFail (st : AppState) (e : String) : AppState :=
  { st with ocrError := some e, isProcessingOcr := false }

/-- A failed OCR flow end to end. -/
def processCapturedImageFailure (st : AppState) (e : String) : AppState :=
  processCapturedImageFail (processCapturedImageStart st) e

/-! ## Zone Classifier (`getZone` in CastleVerdeIndexGauge, src/unnamed/part_001) -/

/-- One entry of the `zones` table. -/
structure Zone where
  label : String
  lo : ℚ
  hi : ℚ
  color : String
deriving DecidableEq

/-- The `zones` table of CastleVerdeIndexGauge. -/
def zones : List Zone :=
  [⟨"Low", 0, 149/10, "#2ECC71"⟩,
   ⟨"Caution", 15, 249/10, "#F4D03F"⟩,
   ⟨"Dangerous", 25, 349/10, "#F5B041"⟩,
   ⟨"Red Zone", 35, 50, "#E74C3C"⟩]

/-- The classification result actually consumed (label and color). -/
structure ZoneDisplay where
  label : String
  color : String
deriving DecidableEq

/-- The `for (const zone of zones) if (score >= zone.range[0] && score <= zone.range[1]) return zone`
loop of `getZone`. -/
def findZone (s : ℚ) : List Zone → Option Zone
  | [] => none
  | z :: rest => if z.lo ≤ s ∧ s ≤ z.hi then some z else findZone s rest

/-- `getZone` of CastleVerdeIndexGauge: `null` gives the neutral display; a
score inside a band gives that band; otherwise scores above the last band's
upper bound give the last band (saturation), and everything else gives the
neutral display. -/
def getZone (score : Option ℚ) : ZoneDisplay :=
  match score with
  | none => ⟨"N/A", "#6b7280"⟩
  | some s =>
    match findZone s zones with
    | some z => ⟨z.label, z.color⟩
    | none =>
      if s > (zones.getLastD ⟨"", 0, 0, ""⟩).hi then
        ⟨(zones.getLastD ⟨"", 0, 0, ""⟩).label,
         (zones.getLastD ⟨"", 0, 0, ""⟩).color⟩
      else ⟨"N/A", "#6b7280"⟩

/-! ## Gauge Motion Engine (CastleVerdeIndexGauge animation effect) -/

/-- `MIN_SCORE` in CastleVerdeIndexGauge. -/
def MIN_SCORE : ℚ := 0

/-- `MAX_SCORE` in CastleVerdeIndexGauge. -/
def MAX_SCORE : ℚ := 50

/-- The gauge's animation-relevant component state: `animatedScore` (the
currently displayed, possibly mid-animation value) and `isInitialRender`. -/
structure GaugeState where
  animatedScore : Option ℚ
  isInitialRender : Bool
deriving DecidableEq

/-- What the gauge's score-change effect decides to do: either set the
displayed value directly with no animation, or start an animation with the
given start value, target value and duration (ms). -/
inductive GaugeEffect where
  | setImmediate (v : Option ℚ)
  | animate (startValue targetValue duration : ℚ)
deriving DecidableEq

/-- The `useEffect([score])` body of CastleVerdeIndexGauge: a `null` score
clears the display; the first non-null score is displayed immediately
(`isInitialRender`); afterwards an animation starts from
`animatedScore ?? MIN_SCORE` toward the clamped target with
`duration = Math.min(Math.abs(diff) * 40, 800)`. -/
def gaugeOnScoreChange (score : Option ℚ) (st : GaugeState) : GaugeEffect :=
  match score with
  | none => .setImmediate none
  | some s =>
    if st.isInitialRender then .setImmediate (some s)
    else
      let startValue := st.animatedScore.getD MIN_SCORE
      let targetValue := max MIN_SCORE (min s MAX_SCORE)
      let diff := targetValue - startValue
      .animate startValue targetValue (min (|diff| * 40) 800)

/-- `easeOutQuad = 1 - (1 - progress) * (1 - progress)` in the animation
callback. -/
def easeOutQuad (p : ℚ) : ℚ := 1 - (1 - p) * (1 - p)

/-- The value the animation callback displays at `elapsed` ms into an
animation: once `elapsed >= duration` it sets the exact target, otherwise
`startValue + diff * easeOutQuad(elapsed / duration)`. -/
def animValueAt (startValue targetValue duration elapsed : ℚ) : ℚ :=
  if duration ≤ elapsed then targetValue
  else startValue + (targetValue - startValue) * easeOutQuad (elapsed / duration)

/-! ## Sequences of `addItem` calls (for id freshness) -/

/-- Folding a sequence of `addItem` calls, each tagged with the `Date.now()`
timestamp observed at that call, over a cart state. -/
def addAll (s : CartState) (calls : List (ℕ × String × MacroNutrients)) :
    CartState :=
  calls.foldl (fun acc c => addItem c.1 c.2.1 c.2.2 acc) s

/-- Macro vectors form a commutative additive monoid under component-wise
addition; this is the algebraic backbone of order independence of the
aggregate. -/
instance : AddCommMonoid MacroNutrients where
  add_assoc a b c := by
    show addMacros (addMacros a b) c = addMacros a (addMacros b c)
    simp [addMacros, add_assoc]
  zero_add a := by
    show addMacros ⟨0, 0, 0, 0, 0⟩ a = a
    cases a
    simp [addMacros]
  add_zero a := by
    show addMacros a ⟨0, 0, 0, 0, 0⟩ = a
    cases a
    simp [addMacros]
  add_comm a b := by
    show addMacros a b = addMacros b a
    simp [addMacros, add_comm]
  nsmul := nsmulRec

/-! ## Helper lemmas -/

theorem aggregateStep_eq (acc : MacroNutrients) (item : CartItem) :
    aggregateStep acc item = acc + contribution item := rfl

theorem zero_macros_def : (0 : MacroNutrients) = ⟨0, 0, 0, 0, 0⟩ := rfl

theorem foldl_aggregateStep (l : List CartItem) (acc : MacroNutrients) :
    l.foldl aggregateStep acc = acc + (l.map contribution).sum := by
  induction l generalizing acc with
  | nil => simp
  | cons x xs ih =>
    simp only [List.foldl_cons, List.map_cons, List.sum_cons, ih,
      aggregateStep_eq, add_assoc]

theorem aggregate_eq_sum (l : List CartItem) :
    aggregate l = (l.map contribution).sum := by
  simpa [aggregate] using foldl_aggregateStep l 0

theorem aggregate_perm {l1 l2 : List CartItem} (h : l1.Perm l2) :
    aggregate l1 = aggregate l2 := by
  simp only [aggregate_eq_sum]
  exact List.Perm.sum_eq (h.map contribution)

theorem findZone_eq (s : ℚ) :
    findZone s zones =
      if 0 ≤ s ∧ s ≤ 149/10 then some ⟨"Low", 0, 149/10, "#2ECC71"⟩
      else if 15 ≤ s ∧ s ≤ 249/10 then some ⟨"Caution", 15, 249/10, "#F4D03F"⟩
      else if 25 ≤ s ∧ s ≤ 349/10 then some ⟨"Dangerous", 25, 349/10, "#F5B041"⟩
      else if 35 ≤ s ∧ s ≤ 50 then some ⟨"Red Zone", 35, 50, "#E74C3C"⟩
      else none := by
  simp only [zones, findZone]

theorem zones_getLastD :
    zones.getLastD ⟨"", 0, 0, ""⟩ = ⟨"Red Zone", 35, 50, "#E74C3C"⟩ := by
  simp [zones]

theorem getZone_gap_na (s : ℚ) (hna : findZone s zones = none) (h50 : s ≤ 50) :
    getZone (some s) = ⟨"N/A", "#6b7280"⟩ := by
  simp only [getZone, hna, zones_getLastD]
  rw [if_neg (by exact not_lt.mpr h50)]

theorem getZone_low (s : ℚ) (h0 : 0 ≤ s) (h1 : s ≤ 149/10) :
    getZone (some s) = ⟨"Low", "#2ECC71"⟩ := by
  have hf := findZone_eq s
  rw [if_pos ⟨h0, h1⟩] at hf
  simp [getZone, hf]

theorem getZone_caution (s : ℚ) (h0 : 15 ≤ s) (h1 : s ≤ 249/10) :
    getZone (some s) = ⟨"Caution", "#F4D03F"⟩ := by
  have hf := findZone_eq s
  rw [if_neg (by rintro ⟨-, h⟩; linarith), if_pos ⟨h0, h1⟩] at hf
  simp [getZone, hf]

theorem getZone_dangerous (s : ℚ) (h0 : 25 ≤ s) (h1 : s ≤ 349/10) :
    getZone (some s) = ⟨"Dangerous", "#F5B041"⟩ := by
  have hf := findZone_eq s
  rw [if_neg (by rintro ⟨-, h⟩; linarith),
      if_neg (by rintro ⟨-, h⟩; linarith), if_pos ⟨h0, h1⟩] at hf
  simp [getZone, hf]

theorem getZone_redzone (s : ℚ) (h0 : 35 ≤ s) (h1 : s ≤ 50) :
    getZone (some s) = ⟨"Red Zone", "#E74C3C"⟩ := by
  have hf := findZone_eq s
  rw [if_neg (by rintro ⟨-, h⟩; linarith), if_neg (by rintro ⟨-, h⟩; linarith),
      if_neg (by rintro ⟨-, h⟩; linarith), if_pos ⟨h0, h1⟩] at hf
  simp [getZone, hf]

theorem findZone_none_of_out (s : ℚ)
    (h1 : ¬ (0 ≤ s ∧ s ≤ 149/10)) (h2 : ¬ (15 ≤ s ∧ s ≤ 249/10))
    (h3 : ¬ (25 ≤ s ∧ s ≤ 349/10)) (h4 : ¬ (35 ≤ s ∧ s ≤ 50)) :
    findZone s zones = none := by
  rw [findZone_eq, if_neg h1, if_neg h2, if_neg h3, if_neg h4]

theorem getZone_above_max (s : ℚ) (h : 50 < s) :
    getZone (some s) = ⟨"Red Zone", "#E74C3C"⟩ := by
  have hf : findZone s zones = none := by
    refine findZone_none_of_out s ?_ ?_ ?_ ?_ <;> rintro ⟨-, hh⟩ <;> linarith
  simp only [getZone, hf, zones_getLastD]
  rw [if_pos h]

theorem getZone_below_min (s : ℚ) (h : s < 0) :
    getZone (some s) = ⟨"N/A", "#6b7280"⟩ := by
  refine getZone_gap_na s ?_ (by linarith)
  refine findZone_none_of_out s ?_ ?_ ?_ ?_ <;> rintro ⟨hh, -⟩ <;> linarith

theorem updateItemQuantityFn_id (itemId : ℕ) (q : ℤ) (item : CartItem) :
    (updateItemQuantityFn itemId q item).id = item.id := by
  simp only [updateItemQuantityFn]
  split_ifs with h <;> rfl

theorem map_id_updateItemQuantityFn (itemId : ℕ) (q : ℤ) (l : List CartItem) :
    (l.map (updateItemQuantityFn itemId q)).map CartItem.id
      = l.map CartItem.id := by
  induction l with
  | nil => rfl
  | cons x xs ih => simp [ih, updateItemQuantityFn_id]

theorem addAll_items_map_id (calls : List (ℕ × String × MacroNutrients)) :
    ∀ s : CartState,
      (addAll s calls).items.map CartItem.id
        = s.items.map CartItem.id ++ calls.map (fun c => c.1) := by
  induction calls with
  | nil => intro s; simp [addAll]
  | cons c cs ih =>
    intro s
    have hstep : addAll s (c :: cs) = addAll (addItem c.1 c.2.1 c.2.2 s) cs :=
      rfl
    rw [hstep, ih]
    simp [addItem]

/-! ## Claim theorems -/

/-- C3 (amended): `getZone` is a total pure function on `Option ℚ`; `none`
maps to the neutral "N/A" display; every score inside one of the four closed
bands [0,14.9], [15,24.9], [25,34.9], [35,50] maps to that band's tier
(boundary-inclusive, so 14.9 stays Low and 15.0 is already Caution); scores
above 50 saturate to Red Zone; scores below 0 map to "N/A"; and — contrary to
the original claim — scores inside the gaps (14.9,15), (24.9,25) and
(34.9,35) also map to "N/A" rather than to one of the four tiers. -/
theorem C3_zone_classifier :
    getZone none = ⟨"N/A", "#6b7280"⟩ ∧
    (∀ s : ℚ, 0 ≤ s → s ≤ 149/10 → getZone (some s) = ⟨"Low", "#2ECC71"⟩) ∧
    (∀ s : ℚ, 15 ≤ s → s ≤ 249/10 → getZone (some s) = ⟨"Caution", "#F4D03F"⟩) ∧
    (∀ s : ℚ, 25 ≤ s → s ≤ 349/10 → getZone (some s) = ⟨"Dangerous", "#F5B041"⟩) ∧
    (∀ s : ℚ, 35 ≤ s → s ≤ 50 → getZone (some s) = ⟨"Red Zone", "#E74C3C"⟩) ∧
    (∀ s : ℚ, 50 < s → getZone (some s) = ⟨"Red Zone", "#E74C3C"⟩) ∧
    (∀ s : ℚ, s < 0 → getZone (some s) = ⟨"N/A", "#6b7280"⟩) ∧
    (∀ s : ℚ, 149/10 < s → s < 15 → getZone (some s) = ⟨"N/A", "#6b7280"⟩) ∧
    (∀ s : ℚ, 249/10 < s → s < 25 → getZone (some s) = ⟨"N/A", "#6b7280"⟩) ∧
    (∀ s : ℚ, 349/10 < s → s < 35 → getZone (some s) = ⟨"N/A", "#6b7280"⟩) := by
  refine ⟨rfl, getZone_low, getZone_caution, getZone_dangerous, getZone_redzone,
    getZone_above_max, getZone_below_min, ?_, ?_, ?_⟩ <;>
    · intro s hlo hhi
      refine getZone_gap_na s ?_ (by linarith)
      refine findZone_none_of_out s ?_ ?_ ?_ ?_ <;> rintro ⟨h1, h2⟩ <;> linarith

/-- C3 witness: the boundary value 14.9 classifies as Low, via the claim
theorem. -/
theorem C3_zone_classifier_witness :
    getZone (some (149/10)) = ⟨"Low", "#2ECC71"⟩ :=
  C3_zone_classifier.2.1 (149/10) (by norm_num) (by norm_num)

/-- C3 counterexample: 14.95 lies in the closed interval [0,50] but
`getZone` classifies it as "N/A", not as any of the four tiers, because the
bands [0,14.9] and [15,24.9] leave the gap (14.9,15) uncovered. -/
theorem C3_counterexample :
    (0 : ℚ) ≤ 1495/100 ∧ (1495/100 : ℚ) ≤ 50 ∧
    getZone (some (1495/100)) = ⟨"N/A", "#6b7280"⟩ ∧
    (∀ z ∈ zones, (getZone (some (1495/100))).label ≠ z.label) := by
  have hz : getZone (some (1495/100)) = ⟨"N/A", "#6b7280"⟩ := by
    refine getZone_gap_na _ ?_ (by norm_num)
    refine findZone_none_of_out _ ?_ ?_ ?_ ?_ <;> rintro ⟨h1, h2⟩ <;> norm_num at h1 h2
  refine ⟨by norm_num, by norm_num, hz, ?_⟩
  rw [hz]
  intro z hzin
  fin_cases hzin <;> simp

/-- C10: `clearCart` sets exactly `items := []` and `cartTotals := null` and
leaves every other store field — in particular `anchorKey` and `error` —
unchanged, so a selected anchor and a previously surfaced error message
survive a cart clear. -/
theorem C10_clearCart_frame : ∀ s : CartState,
    (clearCart s).items = [] ∧ (clearCart s).cartTotals = none ∧
    (clearCart s).anchorKey = s.anchorKey ∧ (clearCart s).error = s.error := by
  intro s
  simp [clearCart]

/-- C1 (code bug evidence): only the single-item balanced-macro fetch routes
the UI anchor key through `mapAnchorKeyToApiValue`; both the cart-level
scoring request (`calculateTotals`) and the single-item scoring request
(`calculateIndividualScore`) send the UI anchor key raw, so with the UI key
"TotalCarbs" selected they send `anchor_id = "TotalCarbs"` instead of the
required wire value `"total_carbs"`. -/
theorem C1_anchor_id_divergence :
    (∀ s : CartState, (calculateTotalsRequest s).anchor_id = s.anchorKey) ∧
    (∀ (d : NutritionData) (k : String),
      (calculateIndividualScoreRequest d k).anchor_id = k) ∧
    (∀ (d : NutritionData) (k : String),
      (fetchIndividualBalancedMacrosRequest d k).anchor_id
        = mapAnchorKeyToApiValue k) ∧
    mapAnchorKeyToApiValue "TotalCarbs" = "total_carbs" ∧
    (calculateTotalsRequest ⟨[], none, "TotalCarbs", none⟩).anchor_id
      = "TotalCarbs" ∧
    (calculateIndividualScoreRequest ⟨"x", none, none, none, none, none⟩
      "TotalCarbs").anchor_id = "TotalCarbs" ∧
    "TotalCarbs" ≠ "total_carbs" := by
  refine ⟨fun s => rfl, fun d k => rfl, fun d k => rfl, by decide, rfl, rfl,
    by decide⟩

/-- C4 counterexample: `updateItemQuantity` can store quantity 0 (it clamps
0 to 0), yet in the aggregation `item.quantity || 1` treats the falsy value 0
as 1, so an item with quantity 0 and 5 g protein still contributes 5 g to the
aggregate instead of contributing nothing. -/
theorem C4_counterexample :
    updateItemQuantityFn 1 0 ⟨1, "x", ⟨5, 0, 0, 0, 0⟩, none⟩
      = ⟨1, "x", ⟨5, 0, 0, 0, 0⟩, some 0⟩ ∧
    (aggregate [⟨1, "x", ⟨5, 0, 0, 0, 0⟩, some 0⟩]).protein = 5 ∧
    (5 : ℚ) ≠ 0 := by
  refine ⟨by decide, ?_, by norm_num⟩
  simp [aggregate, aggregateStep, contribution, effectiveQuantity,
    scaleMacros, addMacros, zero_macros_def]

/-- C4 (amended): the cart aggregate is the element-wise sum over all items of
(macro vector × quantity multiplier), where a positive quantity is a pure
multiplier but — contrary to the original claim — a quantity of 0 (or a
missing quantity) is defaulted to 1 by the `item.quantity || 1` fallback, so a
zero-quantity item contributes its full vector once; `updateItemQuantity`
clamps the requested quantity to ≥ 0 before storing it. -/
theorem C4_quantity_amended :
    (∀ items : List CartItem, aggregate items = (items.map contribution).sum) ∧
    (∀ (item : CartItem) (q : ℕ), item.quantity = some q → q ≠ 0 →
      contribution item = scaleMacros (q : ℚ) item.macros) ∧
    (∀ item : CartItem, item.quantity = some 0 ∨ item.quantity = none →
      contribution item = scaleMacros 1 item.macros) ∧
    (∀ (itemId : ℕ) (q : ℤ) (item : CartItem), item.id = itemId →
      (updateItemQuantityFn itemId q item).quantity = some (clampQuantity q)) ∧
    (∀ q : ℤ, (clampQuantity q : ℤ) = max 0 q ∧ 0 ≤ (max 0 q : ℤ)) := by
  refine ⟨aggregate_eq_sum, ?_, ?_, ?_, ?_⟩
  · intro item q hq hq0
    obtain ⟨n, rfl⟩ := Nat.exists_eq_succ_of_ne_zero hq0
    simp [contribution, effectiveQuantity, hq]
  · rintro item (hq | hq) <;> simp [contribution, effectiveQuantity, hq]
  · intro itemId q item h
    simp [updateItemQuantityFn, h]
  · intro q
    exact ⟨Int.toNat_of_nonneg (le_max_left 0 q), le_max_left 0 q⟩

/-- C4 witness: a quantity-2 item contributes its vector twice, and a
negative requested quantity is stored clamped, via the claim theorem. -/
theorem C4_quantity_amended_witness :
    contribution ⟨1, "x", ⟨5, 0, 0, 0, 0⟩, some 2⟩
      = scaleMacros ((2 : ℕ) : ℚ) ⟨5, 0, 0, 0, 0⟩ ∧
    (updateItemQuantityFn 7 (-3) ⟨7, "y", ⟨0, 0, 0, 0, 0⟩, none⟩).quantity
      = some (clampQuantity (-3)) :=
  ⟨C4_quantity_amended.2.1 _ 2 rfl (by decide),
   C4_quantity_amended.2.2.2.1 7 (-3) _ rfl⟩

/-- C5: the cart aggregate is order independent (invariant under permutation
of the item list), deterministic on unchanged input, and on the spec's
two-item scenario ({10,5,20,2,5}×1 and {5,2,10,1,2}×2) yields
{20,9,40,4,9}. -/
theorem C5_aggregate_order_independence :
    (∀ l1 l2 : List CartItem, l1.Perm l2 → aggregate l1 = aggregate l2) ∧
    (∀ l : List CartItem, aggregate l = aggregate l) ∧
    aggregate [⟨1, "a", ⟨10, 5, 20, 2, 5⟩, some 1⟩,
               ⟨2, "b", ⟨5, 2, 10, 1, 2⟩, some 2⟩]
      = ⟨20, 9, 40, 4, 9⟩ := by
  refine ⟨fun l1 l2 h => aggregate_perm h, fun l => rfl, ?_⟩
  simp [aggregate, aggregateStep, contribution, effectiveQuantity,
    scaleMacros, addMacros, zero_macros_def]
  norm_num

/-- C5 witness: swapping the two scenario items leaves the aggregate
unchanged, via the claim theorem. -/
theorem C5_aggregate_order_independence_witness :
    aggregate [⟨1, "a", ⟨10, 5, 20, 2, 5⟩, some 1⟩,
               ⟨2, "b", ⟨5, 2, 10, 1, 2⟩, some 2⟩]
      = aggregate [⟨2, "b", ⟨5, 2, 10, 1, 2⟩, some 2⟩,
                   ⟨1, "a", ⟨10, 5, 20, 2, 5⟩, some 1⟩] :=
  C5_aggregate_order_independence.1 _ _ (List.Perm.swap _ _ _)

/-- C2 counterexample: the single-item target does not keep a previously
settled score on failure — `calculateIndividualScore` sets
`individualItemScore` to `null` both at request start and in its `catch`
block, so a previously displayed score of 10 is wiped by a failed call. -/
theorem C2_counterexample :
    (calculateIndividualScore
        ⟨some 10, false, none, false, none, false, none, none⟩
        (Except.error "network failure")).individualItemScore = none ∧
    (none : Option ℚ) ≠ some 10 := by
  exact ⟨rfl, by decide⟩

/-- C2 (amended): on a failed scoring call the cart-level target keeps the
previously settled `cartTotals` (stale data preserved) and surfaces the error
alongside, but — contrary to the original claim — the single-item target
clears its displayed score to `null` (at request start and again on failure)
while surfacing the error, so only the cart-level target preserves
stale-but-valid data. -/
theorem C2_failure_handling :
    (∀ (s : CartState) (e : String), s.items ≠ [] →
      (calculateTotals s (Except.error e)).cartTotals = s.cartTotals ∧
      (calculateTotals s (Except.error e)).error = some e) ∧
    (∀ (st : AppState) (e : String),
      (calculateIndividualScore st (Except.error e)).individualItemScore
        = none ∧
      (calculateIndividualScore st (Except.error e)).calculationItemError
        = some e) ∧
    (∀ (st : AppState) (r : CastleVerdeIndexResponse),
      (calculateIndividualScore st (Except.ok r)).individualItemScore
        = some r.predicted_spike) := by
  refine ⟨?_, ?_, ?_⟩
  · intro s e h
    have hne : s.items.isEmpty = false := by
      simpa [List.isEmpty_iff] using h
    simp [calculateTotals, calculateTotalsSettle, hne]
  · intro st e
    simp [calculateIndividualScore, calculateIndividualScoreStart,
      calculateIndividualScoreSettle]
  · intro st r
    simp [calculateIndividualScore, calculateIndividualScoreStart,
      calculateIndividualScoreSettle]

/-- C2 witness: on a one-item cart holding a settled result, a failed call
keeps the result and surfaces "boom", via the claim theorem. -/
theorem C2_failure_handling_witness :
    (calculateTotals
        ⟨[⟨1, "x", ⟨0, 0, 0, 0, 0⟩, none⟩],
         some ⟨⟨7, ⟨0, 0, 0, 0, 0⟩, ⟨0, 0, 0, 0, 0⟩, "Low", "#2ECC71"⟩, 1⟩,
         "protein", none⟩
        (Except.error "boom")).cartTotals
      = some ⟨⟨7, ⟨0, 0, 0, 0, 0⟩, ⟨0, 0, 0, 0, 0⟩, "Low", "#2ECC71"⟩, 1⟩ ∧
    (calculateTotals
        ⟨[⟨1, "x", ⟨0, 0, 0, 0, 0⟩, none⟩],
         some ⟨⟨7, ⟨0, 0, 0, 0, 0⟩, ⟨0, 0, 0, 0, 0⟩, "Low", "#2ECC71"⟩, 1⟩,
         "protein", none⟩
        (Except.error "boom")).error = some "boom" :=
  C2_failure_handling.1 _ "boom" (by simp)

/-- C6 counterexample: a populated draft is not left in its pre-flow state by
a failed AI lookup — `handleAutoFillRequest` clears `ocrResultData` at flow
start, so after the failure the draft is empty rather than holding its
pre-flow vector. -/
theorem C6_counterexample :
    (handleAutoFillRequestFailure
        ⟨none, false, none, false, none, false, none,
         some ⟨⟨"apple", some 1, some 0, some 25, some 4, some 19⟩, some 1⟩⟩
        "lookup failed").ocrResultData
      ≠ (⟨none, false, none, false, none, false, none,
          some ⟨⟨"apple", some 1, some 0, some 25, some 4, some 19⟩, some 1⟩⟩ :
            AppState).ocrResultData := by
  decide

/-- C6 (amended): a failure in either acquisition flow surfaces a
flow-specific error (`lookupError` plus `calculationItemError` for the AI
lookup, `ocrError` for the OCR flow) and populates no draft field from the
failed call, but — contrary to the original claim — each flow clears the
draft (`ocrResultData`) at flow start, so after a failure the draft is empty
rather than in its pre-flow state. -/
theorem C6_flow_failure :
    ∀ (st : AppState) (e : String),
      (handleAutoFillRequestFailure st e).ocrResultData = none ∧
      (handleAutoFillRequestFailure st e).lookupError = some e ∧
      (handleAutoFillRequestFailure st e).calculationItemError = some e ∧
      (handleAutoFillRequestFailure st e).isLookingUp = false ∧
      (processCapturedImageFailure st e).ocrResultData = none ∧
      (processCapturedImageFailure st e).ocrError = some e ∧
      (processCapturedImageFailure st e).isProcessingOcr = false := by
  intro st e
  simp [handleAutoFillRequestFailure, handleAutoFillRequestFail,
    handleAutoFillRequestStart, processCapturedImageFailure,
    processCapturedImageFail, processCapturedImageStart]

/-- C7 counterexample: the response handler of `calculateTotals` checks no
sequence number, so when the later trigger's response (predicted spike 2)
arrives first and the superseded trigger's response (predicted spike 1)
arrives afterwards, the displayed `cartTotals` ends up holding the superseded
request's score 1, not the later trigger's score 2. -/
theorem C7_counterexample :
    CartState.cartTotals
      (applyResponses
        ⟨[⟨1, "x", ⟨0, 0, 0, 0, 0⟩, none⟩], none, "protein", none⟩
        [Except.ok ⟨2, ⟨0, 0, 0, 0, 0⟩, ⟨0, 0, 0, 0, 0⟩, "Caution", "#F4D03F"⟩,
         Except.ok ⟨1, ⟨0, 0, 0, 0, 0⟩, ⟨0, 0, 0, 0, 0⟩, "Low", "#2ECC71"⟩])
      = some ⟨⟨1, ⟨0, 0, 0, 0, 0⟩, ⟨0, 0, 0, 0, 0⟩, "Low", "#2ECC71"⟩, 1⟩ ∧
    (1 : ℚ) ≠ 2 := by
  exact ⟨rfl, by norm_num⟩

/-- C7 (amended): there is no per-target sequence number; every successful
scoring response overwrites `cartTotals` when it arrives, so the displayed
result is always the response that arrived last, regardless of which trigger
issued it (last-response-wins, not last-trigger-wins). -/
theorem C7_last_response_wins (rs : List CastleVerdeIndexResponse) :
    ∀ (s : CartState) (h : rs ≠ []),
      (applyResponses s (rs.map Except.ok)).cartTotals
        = some ⟨rs.getLast h, s.items.length⟩ := by
  induction rs with
  | nil => intro s h; exact absurd rfl h
  | cons r rest ih =>
    intro s h
    cases rest with
    | nil => rfl
    | cons r2 rest2 =>
      have hne : r2 :: rest2 ≠ ([] : List CastleVerdeIndexResponse) := by simp
      have hstep : applyResponses s ((r :: r2 :: rest2).map Except.ok)
          = applyResponses (calculateTotalsSettle s (Except.ok r))
              ((r2 :: rest2).map Except.ok) := rfl
      rw [hstep, ih _ hne]
      rw [List.getLast_cons hne]
      rfl

/-- C7 witness: a single arriving response is displayed, via the claim
theorem. -/
theorem C7_last_response_wins_witness :
    CartState.cartTotals
      (applyResponses ⟨[], none, "protein", none⟩
        [Except.ok ⟨3, ⟨0, 0, 0, 0, 0⟩, ⟨0, 0, 0, 0, 0⟩, "Low", "#2ECC71"⟩])
      = some ⟨⟨3, ⟨0, 0, 0, 0, 0⟩, ⟨0, 0, 0, 0, 0⟩, "Low", "#2ECC71"⟩, 0⟩ := by
  simpa using C7_last_response_wins
    [⟨3, ⟨0, 0, 0, 0, 0⟩, ⟨0, 0, 0, 0, 0⟩, "Low", "#2ECC71"⟩]
    ⟨[], none, "protein", none⟩ (by simp)

/-- C8: the gauge displays the first non-null score immediately with no
animation; on every later score change it starts an animation from the
currently displayed (possibly mid-animation) value toward the clamped target
with duration min(|target − displayed| × 40 ms, 800 ms) under the ease-out
curve 1 − (1 − p)²; and for target 20 from displayed 0 (duration 800 ms) the
interpolated value is monotonically non-decreasing in elapsed time and equals
exactly 20 at the end of the duration. -/
theorem C8_gauge_animation :
    (∀ (s : ℚ) (st : GaugeState), st.isInitialRender = true →
      gaugeOnScoreChange (some s) st = .setImmediate (some s)) ∧
    (∀ (s : ℚ) (st : GaugeState), st.isInitialRender = false →
      gaugeOnScoreChange (some s) st =
        .animate (st.animatedScore.getD MIN_SCORE)
          (max MIN_SCORE (min s MAX_SCORE))
          (min (|max MIN_SCORE (min s MAX_SCORE)
                  - st.animatedScore.getD MIN_SCORE| * 40) 800)) ∧
    gaugeOnScoreChange (some 20) ⟨some 0, false⟩ = .animate 0 20 800 ∧
    (∀ e1 e2 : ℚ, 0 ≤ e1 → e1 ≤ e2 →
      animValueAt 0 20 800 e1 ≤ animValueAt 0 20 800 e2) ∧
    animValueAt 0 20 800 800 = 20 := by
  refine ⟨?_, ?_, ?_, ?_, by norm_num [animValueAt]⟩
  · intro s st h
    simp [gaugeOnScoreChange, h]
  · intro s st h
    simp [gaugeOnScoreChange, h]
  · norm_num [gaugeOnScoreChange, MIN_SCORE, MAX_SCORE, abs_of_nonneg]
  · intro e1 e2 h0 h12
    unfold animValueAt easeOutQuad
    by_cases h1 : (800 : ℚ) ≤ e1
    · have h2 : (800 : ℚ) ≤ e2 := le_trans h1 h12
      rw [if_pos h1, if_pos h2]
    · by_cases h2 : (800 : ℚ) ≤ e2
      · rw [if_neg h1, if_pos h2]
        push_neg at h1
        nlinarith [mul_self_nonneg (1 - e1 / 800)]
      · rw [if_neg h1, if_neg h2]
        push_neg at h1 h2
        nlinarith [mul_nonneg
          (show (0 : ℚ) ≤ e2 / 800 - e1 / 800 by linarith)
          (show (0 : ℚ) ≤ 2 - e1 / 800 - e2 / 800 by linarith)]

/-- C8 witness: the first score 7 is set immediately, and the 0-to-20
animation is non-decreasing between 100 ms and 200 ms, via the claim
theorem. -/
theorem C8_gauge_animation_witness :
    gaugeOnScoreChange (some 7) ⟨none, true⟩ = .setImmediate (some 7) ∧
    animValueAt 0 20 800 100 ≤ animValueAt 0 20 800 200 :=
  ⟨C8_gauge_animation.1 7 ⟨none, true⟩ rfl,
   C8_gauge_animation.2.2.2.1 100 200 (by norm_num) (by norm_num)⟩

/-- C9 counterexample: ids come from `Date.now()`, so two `addItem` calls
within the same millisecond (both observing timestamp 5) produce two cart
items with the identical id, violating pairwise distinctness. -/
theorem C9_counterexample :
    (addAll ⟨[], none, "protein", none⟩
        [(5, "a", ⟨0, 0, 0, 0, 0⟩), (5, "b", ⟨0, 0, 0, 0, 0⟩)]).items.map
          CartItem.id
      = [5, 5] ∧
    ¬ ([5, 5] : List ℕ).Pairwise (fun a b => a ≠ b) := by
  exact ⟨rfl, by decide⟩

/-- C9 (amended): item ids are the `Date.now()` timestamps observed at the
`addItem` calls, so they are pairwise distinct exactly when those timestamps
are pairwise distinct (not for every call sequence); `addItem` only appends
and never mutates an existing item; and no operation changes an existing
item's id (`updateItemQuantity` preserves every id). -/
theorem C9_addItem_ids :
    (∀ (s0 : CartState) (calls : List (ℕ × String × MacroNutrients)),
      s0.items = [] → (calls.map (fun c => c.1)).Pairwise (· ≠ ·) →
      ((addAll s0 calls).items.map CartItem.id).Pairwise (· ≠ ·)) ∧
    (∀ (now : ℕ) (name : String) (macros : MacroNutrients) (s : CartState),
      (addItem now name macros s).items
        = s.items ++ [⟨now, name, macros, none⟩]) ∧
    (∀ (itemId : ℕ) (q : ℤ) (s : CartState),
      (updateItemQuantity itemId q s).items.map CartItem.id
        = s.items.map CartItem.id) ∧
    (∀ (itemId : ℕ) (q : ℤ) (item : CartItem),
      (updateItemQuantityFn itemId q item).id = item.id) := by
  refine ⟨?_, fun now name macros s => rfl, ?_, updateItemQuantityFn_id⟩
  · intro s0 calls h0 hp
    rw [addAll_items_map_id, h0]
    simpa using hp
  · intro itemId q s
    simpa [updateItemQuantity] using
      map_id_updateItemQuantityFn itemId q s.items

/-- C9 witness: two adds at distinct timestamps 1 and 2 give pairwise
distinct ids, via the claim theorem. -/
theorem C9_addItem_ids_witness :
    ((addAll ⟨[], none, "protein", none⟩
        [(1, "a", ⟨0, 0, 0, 0, 0⟩), (2, "b", ⟨0, 0, 0, 0, 0⟩)]).items.map
          CartItem.id).Pairwise (· ≠ ·) :=
  C9_addItem_ids.1 _ _ rfl (by decide)

end MetaBalance
